import Mathlib

/-!
Verification of the backend bridge in wandb/sdk/backend/backend.py:
transport selection in ensure_launched, the process launch path with the
main-module guard (_module_main_install / _module_main_uninstall), the
grpc handshake polling (_grpc_wait_for_port / _grpc_launch_server /
_ensure_launched_grpc), and the latched teardown in cleanup.
-/

namespace WandbBackend

/-- Python exceptions that the modelled code can produce. -/
inductive PyExc
  | attributeError (msg : String)
  | valueError (msg : String)
  | runtimeError (msg : String)
  | fileNotFoundError
deriving DecidableEq

/-- Truthiness of an optional integer in Python: None and 0 are falsy,
every other integer is truthy.  This is the test performed by
the line `if proc and proc.poll():`. -/
def pyTruthyInt : Option Int → Bool
  | none => false
  | some n => n != 0

/-- Truthiness of an optional string in Python: None and the empty string
are falsy.  This is the test performed by `if self._save_mod_name:` and
`elif self._save_mod_path:` in _module_main_uninstall. -/
def pyTruthyStr : Option String → Bool
  | none => false
  | some s => if s = "" then false else true

/-- Numeric value of a list of decimal digits. -/
def digitsVal (l : List Char) : Nat :=
  l.foldl (fun a c => a * 10 + (c.toNat - 48)) 0

/-- Check that every character of the list is a decimal digit. -/
def allDigits (l : List Char) : Bool :=
  l.all (fun c => c.isDigit)

/-- Drop leading whitespace characters from a character list. -/
def dropLeadingWS : List Char → List Char
  | [] => []
  | c :: rest => if c.isWhitespace then dropLeadingWS rest else c :: rest

/-- Strip whitespace from both ends of a character list. -/
def pyStrip (l : List Char) : List Char :=
  dropLeadingWS (dropLeadingWS l.reverse).reverse

/-- Python int(string): surrounding whitespace is stripped, then an
optional sign followed by a nonempty digit string is accepted; anything
else raises ValueError, modelled as none. -/
def pyInt (s : String) : Option Int :=
  match pyStrip s.toList with
  | [] => none
  | c :: rest =>
    if c = '+' then
      if rest ≠ [] ∧ allDigits rest then some (Int.ofNat (digitsVal rest)) else none
    else if c = '-' then
      if rest ≠ [] ∧ allDigits rest then some (-(Int.ofNat (digitsVal rest))) else none
    else if allDigits (c :: rest) then some (Int.ofNat (digitsVal (c :: rest))) else none

/-- Snapshot of the outside world at one poll step of _grpc_wait_for_port:
the returncode reported by a non-blocking poll of the subprocess (none while
it is still running) and the content of the handshake file (none while the
file is absent). -/
structure PollEnv where
  procRc : Option Int
  fileContent : Option String

/-- Observable event of one run of the polling loop. -/
inductive WEvent
  | procExit (rc : Int)
  | sleep
  | readError (s : String)
  | readOk (n : Int)
deriving DecidableEq

/-- Polling loop of Backend._grpc_wait_for_port.  The loop runs while
time.time() is below a 30 second deadline and only the 0.2 second sleeps
advance time, so fuel counts the remaining sleeps; i is the current poll
step.  Each iteration first evaluates `if proc and proc.poll():` (truthy
returncode, so an exit with code 0 is not caught), then checks whether the
handshake file exists, and on the first step at which the file exists it
reads it and returns — on a parse failure port is still None and the
`return port` after the try block runs, so the loop ends either way.
Returns the port, the event trace, and the step at which the loop ended. -/
def grpcWaitForPortAux (env : Nat → PollEnv) (hasProc : Bool) :
    Nat → Nat → Option Int × List WEvent × Nat
  | 0, i => (none, [], i)
  | fuel + 1, i =>
    if hasProc && pyTruthyInt (env i).procRc then
      (none, [WEvent.procExit (((env i).procRc).getD 0)], i)
    else
      match (env i).fileContent with
      | none =>
        let r := grpcWaitForPortAux env hasProc fuel (i + 1)
        (r.1, WEvent.sleep :: r.2.1, r.2.2)
      | some s =>
        match pyInt s with
        | none => (none, [WEvent.readError s], i)
        | some n => (some n, [WEvent.readOk n], i)

/-- Number of 0.2 second sleeps that fit in the 30 second budget. -/
def waitFuel : Nat := 150

/-- Backend._grpc_wait_for_port with a fresh 30 second deadline. -/
def grpcWaitForPort (env : Nat → PollEnv) (hasProc : Bool) :
    Option Int × List WEvent × Nat :=
  grpcWaitForPortAux env hasProc waitFuel 0

/-- Modelled os.unlink: removes the file, raising FileNotFoundError when
it does not exist. -/
def osUnlink (fs : Option String) : Except PyExc (Option String) :=
  match fs with
  | none => Except.error PyExc.fileNotFoundError
  | some _ => Except.ok none

/-- Translation of `try: os.unlink(fname) except Exception: pass`: the
exception is swallowed and the file state is left as it was. -/
def tryUnlinkPass (fs : Option String) : Option String :=
  match osUnlink fs with
  | Except.ok fs2 => fs2
  | Except.error _ => fs

/-- Result of Backend._grpc_launch_server: the discovered port, the state
of the handshake file right after the function returns, and the trace of
the polling loop. -/
structure LaunchServerResult where
  port : Option Int
  fileAfter : Option String
  waitTrace : List WEvent

/-- Backend._grpc_launch_server: delete any stale handshake file with the
error swallowed, spawn the detached grpc-server subprocess, wait for the
port, then delete the handshake file again with the error swallowed,
whatever the outcome of the wait was.  env gives, for each poll step after
the spawn, the subprocess returncode and what the subprocess has written
to the handshake file so far. -/
def grpcLaunchServer (stale : Option String) (env : Nat → PollEnv) : LaunchServerResult :=
  let _fsPreSpawn := tryUnlinkPass stale
  let r := grpcWaitForPort env true
  let fsAfter := tryUnlinkPass ((env r.2.2).fileContent)
  { port := r.1, fileAfter := fsAfter, waitTrace := r.2.1 }

/-- Connection state of the gRPC sender: none means _connect was never
called; some p means _connect was called with port argument p. -/
structure GrpcSender where
  connectArg : Option (Option Int)
deriving DecidableEq

/-- Modelled from the spec: iface_grpc.BackendGrpcSender._connect is not
under src.  Section 4.3 of the spec only says that on success the stub is
connected to localhost at the given port and specifies no check of the
port argument, so the model records the port the stub was asked to
connect with. -/
def grpcSenderConnect (g : GrpcSender) (port : Option Int) : GrpcSender :=
  { g with connectArg := some port }

/-- Outcome of Backend._ensure_launched_grpc as seen by the caller: the
interface stored on the Backend, the port obtained from the handshake,
and any exception raised by the src code of the method itself. -/
structure GrpcLaunchOutcome where
  iface : Option GrpcSender
  port : Option Int
  raised : Option PyExc
deriving DecidableEq

/-- Backend._ensure_launched_grpc: launch the server, construct the
sender, assign it to self.interface and call _connect with whatever port
(possibly None) was obtained.  The src code contains no port check and
raises nothing itself. -/
def ensureLaunchedGrpc (stale : Option String) (env : Nat → PollEnv) : GrpcLaunchOutcome :=
  let lr := grpcLaunchServer stale env
  let g1 := grpcSenderConnect { connectArg := none } lr.port
  { iface := some g1, port := lr.port, raised := none }

/-- Module spec of a Python module, as far as the guard touches it. -/
structure ModSpec where
  name : String
  loader : String
deriving DecidableEq

/-- State of sys.modules at key __main__ as far as the guard touches it:
the __spec__ attribute and the __file__ attribute, both read with getattr
defaulting to None. -/
structure MainModule where
  spec : Option ModSpec
  file : Option String
deriving DecidableEq

/-- Saved-state slots on the Backend, set to None in __init__. -/
structure GuardSlots where
  saveModName : Option String
  saveModPath : Option String
  saveModSpec : Option ModSpec
deriving DecidableEq

/-- Values of the _save_mod_* slots right after Backend.__init__. -/
def guardInit : GuardSlots :=
  { saveModName := none, saveModPath := none, saveModSpec := none }

/-- The placeholder spec installed for the pdb case. -/
def mpmainSpec : ModSpec := { name := "wandb.mpmain", loader := "BuiltinImporter" }

/-- Directory of the wandb package, dirname of wandb.__file__. -/
def wandbDir : String := "/site-packages/wandb"

/-- The placeholder file path installed while the worker process starts. -/
def mpmainFile : String := wandbDir ++ "/mpmain/__main__.py"

/-- Backend._module_main_install on Python 3: when __main__ has no spec,
a placeholder wandb.mpmain spec is installed and the saved-spec slot is
left at None; otherwise the spec is saved and left in place.  The local
main_mod_name is always None, so only the __file__ branch of the second
conditional can run: when __file__ is present it is saved and replaced by
the wandb/mpmain/__main__.py path. -/
def moduleMainInstall (g : GuardSlots) (m : MainModule) : GuardSlots × MainModule :=
  let mainModSpec := m.spec
  let mainModPath := m.file
  let st :=
    match mainModSpec with
    | none => (g, { m with spec := some mpmainSpec })
    | some s => ({ g with saveModSpec := some s }, m)
  match mainModPath with
  | some p => ({ st.1 with saveModPath := some p }, { st.2 with file := some mpmainFile })
  | none => st

/-- Backend._module_main_uninstall: write the saved spec back, then
restore the spec name or the file path depending on Python truthiness of
the saved slots.  When the saved name is truthy but the restored spec is
None, the attribute assignment on None raises. -/
def moduleMainUninstall (g : GuardSlots) (m : MainModule) : Except PyExc MainModule :=
  let m1 := { m with spec := g.saveModSpec }
  if pyTruthyStr g.saveModName then
    match g.saveModSpec, g.saveModName with
    | some s, some nm => Except.ok { m1 with spec := some { s with name := nm } }
    | none, _ => Except.error (PyExc.attributeError "NoneType has no attribute name")
    | some _, none => Except.ok m1
  else if pyTruthyStr g.saveModPath then
    Except.ok { m1 with file := g.saveModPath }
  else
    Except.ok m1

/-- Round trip of the guard on a freshly constructed Backend:
_module_main_install followed by _module_main_uninstall. -/
def installUninstall (m : MainModule) : Except PyExc MainModule :=
  let r := moduleMainInstall guardInit m
  moduleMainUninstall r.1 r.2

/-- Observable step of the process path of Backend.ensure_launched. -/
inductive LEvent
  | queuesCreated
  | guardInstall
  | startOk
  | startRaised
  | guardUninstall
  | senderCreated
deriving DecidableEq

/-- Outcome of the process path of Backend.ensure_launched: the final
main-module state, the saved-state slots, the ordered trace of steps that
ran, and the exception that propagated, if any. -/
structure ProcLaunch where
  mainMod : MainModule
  slots : GuardSlots
  trace : List LEvent
  raised : Option PyExc
deriving DecidableEq

/-- Process path of Backend.ensure_launched: create the two queues, run
_module_main_install, call wandb_process.start(), run
_module_main_uninstall, construct the BackendSender.  startFails injects
a failure of the start() call.  There is no try/finally in the source, so
when start() raises, the uninstall line is never reached and the
exception propagates with the main module left in the installed state. -/
def ensureLaunchedProcess (startFails : Bool) (m : MainModule) : ProcLaunch :=
  let tr0 := [LEvent.queuesCreated]
  let r := moduleMainInstall guardInit m
  let tr1 := tr0 ++ [LEvent.guardInstall]
  if startFails then
    { mainMod := r.2, slots := r.1, trace := tr1 ++ [LEvent.startRaised],
      raised := some (PyExc.runtimeError "process start failed") }
  else
    let tr2 := tr1 ++ [LEvent.startOk]
    match moduleMainUninstall r.1 r.2 with
    | Except.error e =>
      { mainMod := r.2, slots := r.1, trace := tr2, raised := some e }
    | Except.ok m2 =>
      { mainMod := m2, slots := r.1,
        trace := tr2 ++ [LEvent.guardUninstall, LEvent.senderCreated],
        raised := none }

/-- The three transport strategies of the spec. -/
inductive Transport
  | process
  | thread
  | rpc
deriving DecidableEq

/-- Dispatch at the top of Backend.ensure_launched: the grpc and thread
values are matched by string equality; every other value, including an
unspecified one, takes the multiprocessing Process path. -/
def selectTransport (startMethod : Option String) : Transport :=
  if startMethod = some "grpc" then Transport.rpc
  else if startMethod = some "thread" then Transport.thread
  else Transport.process

/-- Start methods known to the multiprocessing module of CPython on
Linux, the value of multiprocessing.get_all_start_methods(). -/
def getAllStartMethods : List String := ["fork", "spawn", "forkserver"]

/-- Backend._multiprocessing_setup: thread and grpc keep the
multiprocessing module default; otherwise the configured method (falling
back to spawn when the value is falsy) is passed to
multiprocessing.get_context, which raises ValueError for a method name
the platform does not know.  The ok value names the chosen context, none
meaning the module default. -/
def multiprocessingSetup (startMethod : Option String) : Except PyExc (Option String) :=
  if startMethod = some "thread" ∨ startMethod = some "grpc" then Except.ok none
  else
    let sm :=
      match startMethod with
      | some s => if s = "" then "spawn" else s
      | none => "spawn"
    if sm ∈ getAllStartMethods then Except.ok (some sm)
    else Except.error (PyExc.valueError ("cannot find context for " ++ sm))

/-- The interface object held by the Backend; the flag injects a failure
of its join() call. -/
structure Iface where
  joinFails : Bool
deriving DecidableEq

/-- The worker handle held by the Backend; the flag injects a failure of
its join() call. -/
structure Worker where
  joinFails : Bool
deriving DecidableEq

/-- A multiprocessing queue held by the Backend; the flag injects a
failure of its close() call. -/
structure MPQueue where
  closeFails : Bool
deriving DecidableEq

/-- The attributes of a Backend that Backend.cleanup reads: the _done
flag and the four optional resources. -/
structure CleanupState where
  done : Bool
  iface : Option Iface
  wandbProcess : Option Worker
  recordQ : Option MPQueue
  resultQ : Option MPQueue
deriving DecidableEq

/-- Completed teardown side effects of Backend.cleanup, in order. -/
inductive TEff
  | interfaceJoin
  | processJoin
  | recordQClose
  | resultQClose
deriving DecidableEq

/-- Queue-closing tail of Backend.cleanup: `if self.record_q:
self.record_q.close()` then the same for result_q, with no exception
handling around either close. -/
def cleanupQueues (s1 : CleanupState) (t : List TEff) :
    CleanupState × List TEff × Except PyExc Unit :=
  match s1.recordQ with
  | some q =>
    if q.closeFails then
      (s1, t, Except.error (PyExc.runtimeError "record queue close failed"))
    else
      let t2 := t ++ [TEff.recordQClose]
      match s1.resultQ with
      | some q2 =>
        if q2.closeFails then
          (s1, t2, Except.error (PyExc.runtimeError "result queue close failed"))
        else (s1, t2 ++ [TEff.resultQClose], Except.ok ())
      | none => (s1, t2, Except.ok ())
  | none =>
    match s1.resultQ with
    | some q2 =>
      if q2.closeFails then
        (s1, t, Except.error (PyExc.runtimeError "result queue close failed"))
      else (s1, t ++ [TEff.resultQClose], Except.ok ())
    | none => (s1, t, Except.ok ())

/-- Backend.cleanup: return immediately when _done is already set;
otherwise set _done first, then call self.interface.join() with no None
guard (an AttributeError when the interface is absent), join the worker
when present, and close both queues when present.  No step is wrapped in
a try/except, so the first failing step aborts the rest while _done stays
set.  The result is the new state, the completed side effects in order,
and the Python outcome of the call. -/
def cleanup (s : CleanupState) : CleanupState × List TEff × Except PyExc Unit :=
  if s.done then (s, [], Except.ok ())
  else
    let s1 := { s with done := true }
    match s.iface with
    | none =>
      (s1, [], Except.error (PyExc.attributeError "NoneType has no attribute join"))
    | some i =>
      if i.joinFails then
        (s1, [], Except.error (PyExc.runtimeError "interface join failed"))
      else
        match s.wandbProcess with
        | some p =>
          if p.joinFails then
            (s1, [TEff.interfaceJoin],
              Except.error (PyExc.runtimeError "process join failed"))
          else
            cleanupQueues s1 [TEff.interfaceJoin, TEff.processJoin]
        | none => cleanupQueues s1 [TEff.interfaceJoin]

/-- A run in which the subprocess stays alive and never writes the
handshake file. -/
def quietEnv : Nat → PollEnv := fun _ => { procRc := none, fileContent := none }

/-- A run in which the subprocess has exited with code 0 before ever
writing the handshake file. -/
def zeroExitEnv : Nat → PollEnv := fun _ => { procRc := some 0, fileContent := none }

/-- A run in which the subprocess has exited with code 3 before ever
writing the handshake file. -/
def deadEnv : Nat → PollEnv := fun _ => { procRc := some 3, fileContent := none }

/-- A run in which the subprocess has exited with code 1 before ever
writing the handshake file. -/
def crashEnv : Nat → PollEnv := fun _ => { procRc := some 1, fileContent := none }

/-- A run in which a torn write is observed at the first poll and a
complete port number is on disk from the next poll on. -/
def tornEnv : Nat → PollEnv := fun i =>
  if i = 0 then { procRc := none, fileContent := some "12a" }
  else { procRc := none, fileContent := some "1234" }

/-- A run in which the handshake file always holds unparseable text. -/
def badFileEnv : Nat → PollEnv := fun _ => { procRc := none, fileContent := some "oops" }

/-- A run in which the port 8765 is on disk from the first poll on. -/
def idleEnv : Nat → PollEnv := fun _ => { procRc := none, fileContent := some "8765" }

/-- A typical main module: a named spec and a script path. -/
def mainMod0 : MainModule :=
  { spec := some { name := "__main__", loader := "SourceFileLoader" },
    file := some "/app/train.py" }

/-- A Backend on which ensure_launched was never called: every resource
attribute still holds its __init__ value None. -/
def freshBridge : CleanupState :=
  { done := false, iface := none, wandbProcess := none, recordQ := none, resultQ := none }

/-- A launched Backend whose interface join raises. -/
def failingJoinBridge : CleanupState :=
  { done := false, iface := some { joinFails := true },
    wandbProcess := some { joinFails := false },
    recordQ := some { closeFails := false }, resultQ := some { closeFails := false } }

/-- A launched Backend whose interface join raises, used for the latched
teardown scenario. -/
def latchedBridge : CleanupState :=
  { done := false, iface := some { joinFails := true },
    wandbProcess := some { joinFails := false },
    recordQ := some { closeFails := false }, resultQ := some { closeFails := true } }

/-- A launched Backend on which every teardown step succeeds. -/
def healthyBridge : CleanupState :=
  { done := false, iface := some { joinFails := false },
    wandbProcess := some { joinFails := false },
    recordQ := some { closeFails := false }, resultQ := some { closeFails := false } }

/-- Install never records a module name, since the local main_mod_name of
_module_main_install is the constant None. -/
theorem install_saveModName_none (m : MainModule) :
    (moduleMainInstall guardInit m).1.saveModName = none := by
  rcases m with ⟨sp, fl⟩
  cases sp <;> cases fl <;> rfl

/-- Uninstall succeeds whenever the saved-name slot is None, which is the
only state install can produce from a fresh Backend. -/
theorem uninstall_ok_of_name_none (g : GuardSlots) (m : MainModule)
    (h : g.saveModName = none) :
    ∃ m2, moduleMainUninstall g m = Except.ok m2 := by
  rcases g with ⟨gn, gp, gs⟩
  simp only at h
  subst h
  unfold moduleMainUninstall
  simp only [pyTruthyStr, Bool.false_eq_true, if_false]
  split
  · exact ⟨_, rfl⟩
  · exact ⟨_, rfl⟩

/-- A cleanup call on a Backend whose _done flag is set is a no-op. -/
theorem cleanup_done_noop (t : CleanupState) (h : t.done = true) :
    cleanup t = (t, [], Except.ok ()) := by
  rcases t with ⟨td, ti, tw, trq, tsq⟩
  simp only at h
  subst h
  rfl

/-- Claim C1 counterexample: the process-transport launch has no
try/finally around wandb_process.start(), so when start() raises, the
Host-Environment Guard uninstall is never performed: the trace of the
failed launch contains no uninstall step, the exception propagates, and
the main module is left in the installed (not restored) state. -/
theorem c1_counterexample :
    LEvent.guardUninstall ∉ (ensureLaunchedProcess true mainMod0).trace ∧
    (ensureLaunchedProcess true mainMod0).raised =
      some (PyExc.runtimeError "process start failed") ∧
    (ensureLaunchedProcess true mainMod0).mainMod ≠ mainMod0 := by
  refine ⟨by decide, rfl, by decide⟩

/-- Claim C1 amended: the install/uninstall pair of the Host-Environment
Guard is executed only on the success path of a process-transport launch.
When start() returns normally, uninstall runs and no exception
propagates; when start() raises, the failure propagates without the
uninstall ever running. -/
theorem c1_amended (m : MainModule) :
    (LEvent.guardUninstall ∈ (ensureLaunchedProcess false m).trace ∧
      (ensureLaunchedProcess false m).raised = none) ∧
    (LEvent.guardUninstall ∉ (ensureLaunchedProcess true m).trace ∧
      (ensureLaunchedProcess true m).raised =
        some (PyExc.runtimeError "process start failed")) := by
  constructor
  · obtain ⟨m2, hu⟩ := uninstall_ok_of_name_none (moduleMainInstall guardInit m).1
      (moduleMainInstall guardInit m).2 (install_saveModName_none m)
    constructor
    · simp [ensureLaunchedProcess, hu]
    · simp [ensureLaunchedProcess, hu]
  · constructor
    · simp [ensureLaunchedProcess]
    · rfl

/-- Claim C1 witness: the amended statement evaluated at a typical main
module. -/
theorem c1_witness :
    (LEvent.guardUninstall ∈ (ensureLaunchedProcess false mainMod0).trace ∧
      (ensureLaunchedProcess false mainMod0).raised = none) ∧
    (LEvent.guardUninstall ∉ (ensureLaunchedProcess true mainMod0).trace ∧
      (ensureLaunchedProcess true mainMod0).raised =
        some (PyExc.runtimeError "process start failed")) :=
  c1_amended mainMod0

/-- Claim C2 counterexample: on a Bridge on which ensure_launched was
never called, cleanup() raises AttributeError, because the source calls
self.interface.join() with no None guard. -/
theorem c2_counterexample :
    (cleanup freshBridge).2.2 =
      Except.error (PyExc.attributeError "NoneType has no attribute join") := by
  rfl

/-- Claim C2 amended: cleanup() is not exception safe: on a Bridge on
which ensure_launched() was never called it raises AttributeError from
self.interface.join(), and no teardown step is wrapped in a try/except;
the _done flag is set before the first teardown step, so the terminal
closed state is still reached even on such a failure. -/
theorem c2_amended (s : CleanupState) (h1 : s.done = false) (h2 : s.iface = none) :
    (cleanup s).1.done = true ∧
    (cleanup s).2.2 =
      Except.error (PyExc.attributeError "NoneType has no attribute join") := by
  rcases s with ⟨d, i, w, rq, sq⟩
  simp only at h1 h2
  subst h1
  subst h2
  exact ⟨rfl, rfl⟩

/-- Claim C2 witness: the amended statement evaluated at a Bridge that
was never launched. -/
theorem c2_witness :
    (cleanup freshBridge).1.done = true ∧
    (cleanup freshBridge).2.2 =
      Except.error (PyExc.attributeError "NoneType has no attribute join") :=
  c2_amended freshBridge rfl rfl

/-- Claim C3 counterexample: on a launched Bridge whose interface join
raises, two sequential cleanup() calls perform the queue closes and the
joins zero times, not exactly once: the combined effect trace of both
calls is empty. -/
theorem c3_counterexample :
    ((cleanup failingJoinBridge).2.1 ++
        (cleanup (cleanup failingJoinBridge).1).2.1).count TEff.recordQClose = 0 ∧
    ((cleanup failingJoinBridge).2.1 ++
        (cleanup (cleanup failingJoinBridge).1).2.1).count TEff.interfaceJoin = 0 := by
  refine ⟨rfl, rfl⟩

/-- Claim C3 amended: on a launched Bridge on which every teardown step
succeeds, the first cleanup() performs each of the four teardown effects
exactly once and sets the _done flag, and every later cleanup() call is a
no-op; when a step raises, later calls are still no-ops but the skipped
effects are never performed. -/
theorem c3_amended (s : CleanupState)
    (h1 : s.done = false)
    (h2 : s.iface = some { joinFails := false })
    (h3 : s.wandbProcess = some { joinFails := false })
    (h4 : s.recordQ = some { closeFails := false })
    (h5 : s.resultQ = some { closeFails := false }) :
    (cleanup s).2.1 =
      [TEff.interfaceJoin, TEff.processJoin, TEff.recordQClose, TEff.resultQClose] ∧
    (cleanup s).1.done = true ∧
    cleanup (cleanup s).1 = ((cleanup s).1, [], Except.ok ()) := by
  rcases s with ⟨d, i, w, rq, sq⟩
  simp only at h1 h2 h3 h4 h5
  subst h1; subst h2; subst h3; subst h4; subst h5
  exact ⟨rfl, rfl, rfl⟩

/-- Claim C3 witness: the amended statement evaluated at a healthy
launched Bridge. -/
theorem c3_witness :
    (cleanup healthyBridge).2.1 =
      [TEff.interfaceJoin, TEff.processJoin, TEff.recordQClose, TEff.resultQClose] ∧
    (cleanup healthyBridge).1.done = true ∧
    cleanup (cleanup healthyBridge).1 = ((cleanup healthyBridge).1, [], Except.ok ()) :=
  c3_amended healthyBridge rfl rfl rfl rfl rfl

/-- Claim C10: teardown is latched, not atomic.  Once cleanup() is
entered on an open Bridge, the _done flag is set before any teardown
step; when the interface join then raises, no teardown effect has been
performed, the exception propagates, and every later cleanup() call is an
immediate no-op, so the queues are never closed. -/
theorem c10_latched (s : CleanupState) (h1 : s.done = false)
    (h2 : s.iface = some { joinFails := true }) :
    (cleanup s).1.done = true ∧
    (cleanup s).2.1 = [] ∧
    (cleanup s).2.2 = Except.error (PyExc.runtimeError "interface join failed") ∧
    cleanup (cleanup s).1 = ((cleanup s).1, [], Except.ok ()) := by
  rcases s with ⟨d, i, w, rq, sq⟩
  simp only at h1 h2
  subst h1; subst h2
  exact ⟨rfl, rfl, rfl, rfl⟩

/-- Claim C10 witness: the latched-teardown statement evaluated at a
launched Bridge whose interface join raises. -/
theorem c10_witness :
    (cleanup latchedBridge).1.done = true ∧
    (cleanup latchedBridge).2.1 = [] ∧
    (cleanup latchedBridge).2.2 =
      Except.error (PyExc.runtimeError "interface join failed") ∧
    cleanup (cleanup latchedBridge).1 = ((cleanup latchedBridge).1, [], Except.ok ()) :=
  c10_latched latchedBridge rfl rfl

set_option maxRecDepth 4000 in
/-- Claim C4 counterexample: when the handshake times out with the
subprocess still alive and the file never written, _ensure_launched_grpc
raises no LaunchFailure and performs no port check: it completes its own
code with the sender constructed, stored on the Backend, and _connect
invoked with the null port. -/
theorem c4_counterexample :
    ensureLaunchedGrpc none quietEnv =
      { iface := some { connectArg := some none }, port := none, raised := none } := by
  decide

/-- Claim C4 amended: whenever _grpc_launch_server obtains no port,
_ensure_launched_grpc does not fail with a dedicated launch error; it
constructs the gRPC sender, assigns it to self.interface, and calls
_connect with the null port, so any synchronous failure can arise only
inside the external _connect call, after the unconnected sender is
already stored on the Bridge. -/
theorem c4_amended (stale : Option String) (env : Nat → PollEnv)
    (h : (grpcLaunchServer stale env).port = none) :
    ensureLaunchedGrpc stale env =
      { iface := some { connectArg := some none }, port := none, raised := none } := by
  simp [ensureLaunchedGrpc, grpcSenderConnect, h]

/-- Claim C4 witness: the amended statement evaluated at a run whose
subprocess died with exit code 3 before writing the handshake file. -/
theorem c4_witness :
    ensureLaunchedGrpc none deadEnv =
      { iface := some { connectArg := some none }, port := none, raised := none } :=
  c4_amended none deadEnv rfl

/-- Claim C5 counterexample: when the handshake file holds unparseable
text at the first poll, _grpc_wait_for_port logs the error and returns
None at that very poll — the `return port` statement sits outside the try
block — even though a parseable port is on disk from the next poll on, so
polling does not continue until the timeout. -/
theorem c5_counterexample :
    grpcWaitForPort tornEnv true = (none, [WEvent.readError "12a"], 0) ∧
    pyInt "1234" = some 1234 ∧
    (tornEnv 1).fileContent = some "1234" := by
  refine ⟨rfl, rfl, rfl⟩

/-- Claim C5 amended: when the handshake file exists but its contents do
not parse as an integer, the error is logged and _grpc_wait_for_port
returns None immediately at that poll, treating the attempt as a failed
launch; polling does not continue on subsequent intervals. -/
theorem c5_amended (env : Nat → PollEnv) (hasProc : Bool) (fuel i : Nat) (s : String)
    (h1 : (hasProc && pyTruthyInt (env i).procRc) = false)
    (h2 : (env i).fileContent = some s)
    (h3 : pyInt s = none) :
    grpcWaitForPortAux env hasProc (fuel + 1) i = (none, [WEvent.readError s], i) := by
  simp [grpcWaitForPortAux, h1, h2, h3]

/-- Claim C5 witness: the amended statement evaluated at a run whose
handshake file holds unparseable text. -/
theorem c5_witness :
    grpcWaitForPortAux badFileEnv false 150 0 = (none, [WEvent.readError "oops"], 0) :=
  c5_amended badFileEnv false 149 0 "oops" rfl rfl rfl

set_option maxRecDepth 4000 in
/-- Claim C6 counterexample: when the subprocess exits with code 0 before
writing the handshake file, the truthiness test `if proc and proc.poll():`
does not fire, so _grpc_wait_for_port sleeps through all 150 polling
intervals of the 30-second budget instead of returning within one
interval. -/
theorem c6_counterexample :
    grpcWaitForPort zeroExitEnv true =
      (none, List.replicate waitFuel WEvent.sleep, waitFuel) := by
  decide

/-- Claim C6 amended: an early exit of the subprocess is detected via the
non-blocking poll and makes _grpc_wait_for_port return None within the
current polling interval only when the exit code is nonzero; an exit with
code 0 is falsy and is not detected. -/
theorem c6_amended (env : Nat → PollEnv) (fuel i : Nat) (rc : Int)
    (h1 : (env i).procRc = some rc) (h2 : rc ≠ 0) :
    grpcWaitForPortAux env true (fuel + 1) i = (none, [WEvent.procExit rc], i) := by
  simp [grpcWaitForPortAux, h1, pyTruthyInt, h2]

/-- Claim C6 witness: the amended statement evaluated at a run whose
subprocess died with exit code 1 at the first poll. -/
theorem c6_witness :
    grpcWaitForPortAux crashEnv true 150 0 = (none, [WEvent.procExit 1], 0) :=
  c6_amended crashEnv 149 0 1 rfl (by decide)

/-- Claim C7 counterexample: the dispatch in ensure_launched sends an
unknown start_method to the process path, but constructing the Backend is
not the same as with the process default: _multiprocessing_setup passes
the unknown value to multiprocessing.get_context, which raises
ValueError, while the unspecified value falls back to spawn. -/
theorem c7_counterexample :
    multiprocessingSetup (some "banana") =
      Except.error (PyExc.valueError "cannot find context for banana") ∧
    selectTransport (some "banana") = Transport.process ∧
    multiprocessingSetup none = Except.ok (some "spawn") := by
  refine ⟨rfl, rfl, rfl⟩

/-- Claim C7 amended: ensure_launched dispatches every start_method other
than thread and grpc, including unknown values, to the process path, and
an unspecified start_method falls back fully to the spawn context; but an
unknown non-empty start_method raises ValueError from
multiprocessing.get_context during Backend construction, so it does not
behave the same as the process default. -/
theorem c7_amended (s : String) (h1 : s ≠ "thread") (h2 : s ≠ "grpc")
    (h3 : s ∉ getAllStartMethods) (h4 : s ≠ "") :
    selectTransport (some s) = Transport.process ∧
    multiprocessingSetup (some s) =
      Except.error (PyExc.valueError ("cannot find context for " ++ s)) ∧
    selectTransport none = Transport.process ∧
    multiprocessingSetup none = Except.ok (some "spawn") := by
  refine ⟨?_, ?_, rfl, rfl⟩
  · simp [selectTransport, h1, h2]
  · simp [multiprocessingSetup, h1, h2, h3, h4]

/-- Claim C7 witness: the amended statement evaluated at the unknown
start_method banana. -/
theorem c7_witness :
    selectTransport (some "banana") = Transport.process ∧
    multiprocessingSetup (some "banana") =
      Except.error (PyExc.valueError ("cannot find context for " ++ "banana")) ∧
    selectTransport none = Transport.process ∧
    multiprocessingSetup none = Except.ok (some "spawn") :=
  c7_amended "banana" (by decide) (by decide) (by decide) (by decide)

/-- Claim C8: after every rpc launch attempt, whatever the outcome of the
wait (port read, parse error, early subprocess exit, or timeout) and
whatever stale file existed beforehand, _grpc_launch_server unlinks the
handshake file with errors swallowed before returning, so the file no
longer exists at its computed path. -/
theorem c8_handshake_removed (stale : Option String) (env : Nat → PollEnv) :
    (grpcLaunchServer stale env).fileAfter = none := by
  have h : ∀ fs : Option String, tryUnlinkPass fs = none := by
    intro fs; cases fs <;> rfl
  simp [grpcLaunchServer, h]

/-- Claim C8 witness: the statement evaluated at a run that reads the
port at the first poll. -/
theorem c8_witness : (grpcLaunchServer none idleEnv).fileAfter = none :=
  c8_handshake_removed none idleEnv

/-- Claim C9 counterexample: when the main module has an empty-string
__file__, install saves the empty string, but the uninstall restore is
guarded by Python truthiness (`elif self._save_mod_path:`), which is
false for the empty string, so the round trip leaves the placeholder
mpmain path in place instead of restoring the prior state. -/
theorem c9_counterexample :
    installUninstall { spec := none, file := some "" } =
      Except.ok { spec := none, file := some mpmainFile } ∧
    some mpmainFile ≠ some "" := by
  refine ⟨rfl, by decide⟩

/-- Claim C9 amended: for every prior main-module state whose __file__ is
not the empty string — including states with no __spec__ at all — the
guard round trip restores exactly the prior state: uninstall after
install is the identity on the pair of __spec__ and __file__. -/
theorem c9_amended (m : MainModule) (h : m.file ≠ some "") :
    installUninstall m = Except.ok m := by
  rcases m with ⟨sp, fl⟩
  cases sp <;> cases fl <;>
    simp_all [installUninstall, moduleMainInstall, moduleMainUninstall,
      guardInit, pyTruthyStr]

/-- Claim C9 witness: the round trip evaluated at a module with no spec
and a nonempty file path. -/
theorem c9_witness :
    installUninstall { spec := none, file := some "/app/train.py" } =
      Except.ok { spec := none, file := some "/app/train.py" } :=
  c9_amended { spec := none, file := some "/app/train.py" } (by decide)

end WandbBackend
